import Mathlib

/-!
Shallow embedding of `web3/_utils/module_testing/module_testing_utils.py`:
the offchain-lookup request interceptors (sync and async) installed by
`mock_offchain_lookup_request_response` / `async_mock_offchain_lookup_request_response`,
their mocked response objects, the `WebSocketMessageStreamMock` stream double,
and the `assert_contains_log` assertion helper.

External collaborators (the `requests`/`aiohttp` session factory and its
`request` operation, `eth_utils.is_same_address`, `hexbytes.HexBytes`,
`aiohttp.ClientTimeout`) are embedded as oracle parameters or per the
behaviour the spec describes for them; everything else is translated from
the source file.
-/

namespace ModuleTestingUtils

/-- Python primitive values that appear in the interceptors' keyword
arguments: integers, strings, `None`, and `aiohttp.ClientTimeout(total)`. -/
inductive PyPrim where
  | pInt (n : Int)
  | pStr (s : String)
  | pNone
  | pClientTimeout (total : Int)
deriving DecidableEq

/-- A Python value as the interceptors see it: a primitive, or a flat
string-keyed dict of primitives (the shape of the POST `data` mapping). -/
inductive PyVal where
  | prim (p : PyPrim)
  | dict (entries : List (String × PyPrim))
deriving DecidableEq

/-- One direction of Python dict equality: every entry of `a` is present
in `b` with the same value. -/
def dictLe (a b : List (String × PyPrim)) : Bool :=
  a.all fun kv => b.lookup kv.1 == some kv.2

/-- Python `==` on the embedded values: structural equality on primitives,
key-set/value equality (insertion-order independent) on dicts, and values
of different kinds compare unequal (in Python `10 == ClientTimeout(10)`
is `False`). -/
def pyEq : PyVal → PyVal → Bool
  | PyVal.prim x, PyVal.prim y => x == y
  | PyVal.dict a, PyVal.dict b => dictLe a b && dictLe b a
  | _, _ => false

/-- Python `**kwargs`: a string-keyed mapping of embedded values. -/
abbrev Kwargs := List (String × PyVal)

/-- The configuration captured by the closures of
`mock_offchain_lookup_request_response` and
`async_mock_offchain_lookup_request_response` (their parameters). -/
structure MockConfig where
  http_method : String
  mocked_request_url : Option String
  mocked_status_code : Int
  mocked_json_data : String
  json_data_field : String
  sender : Option String
  calldata : Option String
deriving DecidableEq

/-- The default parameter values of both mocking functions:
`http_method="GET"`, `mocked_request_url=None`, `mocked_status_code=200`,
`mocked_json_data="0x"`, `json_data_field="data"`, `sender=None`,
`calldata=None`. -/
def defaultMockConfig : MockConfig :=
  { http_method := "GET"
    mocked_request_url := none
    mocked_status_code := 200
    mocked_json_data := "0x"
    json_data_field := "data"
    sender := none
    calldata := none }

/-- The `MockedResponse` class of the sync interceptor: a value object
carrying the captured `mocked_status_code`, `json_data_field` and
`mocked_json_data`. -/
structure MockedResponse where
  status_code : Int
  json_data_field : String
  mocked_json_data : String
deriving DecidableEq

/-- `MockedResponse.json()`: returns the dict `{json_data_field: mocked_json_data}`,
embedded as the one-entry association list. -/
def MockedResponse.json (r : MockedResponse) : List (String × String) :=
  [(r.json_data_field, r.mocked_json_data)]

/-- `MockedResponse.raise_for_status()`: unconditionally raises
`Exception("called raise_for_status()")`. -/
def MockedResponse.raise_for_status (_ : MockedResponse) : Except String Unit :=
  Except.error "called raise_for_status()"

/-- The `AsyncMockedResponse` class of the async interceptor (its `status`
attribute plays the role of the sync `status_code`). -/
structure AsyncMockedResponse where
  status : Int
  json_data_field : String
  mocked_json_data : String
deriving DecidableEq

/-- `AsyncMockedResponse.json()` (an async method resolving immediately):
returns the dict `{json_data_field: mocked_json_data}`. -/
def AsyncMockedResponse.json (r : AsyncMockedResponse) : List (String × String) :=
  [(r.json_data_field, r.mocked_json_data)]

/-- `AsyncMockedResponse.raise_for_status()`: unconditionally raises
`Exception("called raise_for_status()")`. -/
def AsyncMockedResponse.raise_for_status (_ : AsyncMockedResponse) : Except String Unit :=
  Except.error "called raise_for_status()"

/-- `AsyncMockedResponse.__await__`: awaiting the response yields the
response itself. -/
def AsyncMockedResponse.awaited (r : AsyncMockedResponse) : AsyncMockedResponse := r

/-- The synthetic response `MockedResponse()` built from the captured
configuration. -/
def MockConfig.mockedResponse (cfg : MockConfig) : MockedResponse :=
  { status_code := cfg.mocked_status_code
    json_data_field := cfg.json_data_field
    mocked_json_data := cfg.mocked_json_data }

/-- The synthetic response `AsyncMockedResponse()` built from the captured
configuration. -/
def MockConfig.asyncMockedResponse (cfg : MockConfig) : AsyncMockedResponse :=
  { status := cfg.mocked_status_code
    json_data_field := cfg.json_data_field
    mocked_json_data := cfg.mocked_json_data }

/-- Embed an optional Python string parameter (default `None`). -/
def optStr : Option String → PyPrim
  | some s => PyPrim.pStr s
  | none => PyPrim.pNone

/-- The dict literal `{"data": calldata, "sender": sender}` that the POST
body is asserted against. -/
def MockConfig.expectedPostData (cfg : MockConfig) : PyVal :=
  PyVal.dict [("data", optStr cfg.calldata), ("sender", optStr cfg.sender)]

/-- The Python exceptions the interceptor bodies can raise:
`AssertionError` from `assert`, `KeyError` from `kwargs[...]`, `IndexError`
from `args[1]`. -/
inductive PyError where
  | assertionError
  | keyError (key : String)
  | indexError
deriving DecidableEq

/-- The outcome of one interceptor call: an exception, the synthetic
mocked response, or the value returned by the real-session path. -/
inductive MockOutcome (μ ρ : Type) where
  | error (e : PyError)
  | mocked (r : μ)
  | real (r : ρ)
deriving DecidableEq

/-- The sync `_mock_specific_request(*args, **kwargs)` closure.
`cache_and_return_session` (the URL-keyed session factory) and
`session_request` (`session.request(method=..., url=..., **kwargs)`) are
the external real-session collaborators, passed as oracles.  The second
component of the result counts how many times the real-session path was
taken (it calls the factory and the request operation once each).

Body, line by line: `url_from_args = args[1]`; if the url equals
`mocked_request_url`: `assert kwargs["timeout"] == 10`, then if
`http_method.upper() == "POST"`:
`assert kwargs["data"] == {"data": calldata, "sender": sender}`, then
`return MockedResponse()`; otherwise
`session = cache_and_return_session(url_from_args)` and
`return session.request(method=http_method.upper(), url=url_from_args, **kwargs)`. -/
def mock_specific_request {σ ρ : Type} (cfg : MockConfig)
    (cache_and_return_session : String → σ)
    (session_request : σ → String → String → Kwargs → ρ)
    (args : List String) (kwargs : Kwargs) :
    MockOutcome MockedResponse ρ × Nat :=
  match args.get? 1 with
  | none => (MockOutcome.error PyError.indexError, 0)
  | some url_from_args =>
    if some url_from_args == cfg.mocked_request_url then
      match kwargs.lookup "timeout" with
      | none => (MockOutcome.error (PyError.keyError "timeout"), 0)
      | some t =>
        if pyEq t (PyVal.prim (PyPrim.pInt 10)) then
          if cfg.http_method.toUpper == "POST" then
            match kwargs.lookup "data" with
            | none => (MockOutcome.error (PyError.keyError "data"), 0)
            | some d =>
              if pyEq d cfg.expectedPostData then
                (MockOutcome.mocked cfg.mockedResponse, 0)
              else
                (MockOutcome.error PyError.assertionError, 0)
          else
            (MockOutcome.mocked cfg.mockedResponse, 0)
        else
          (MockOutcome.error PyError.assertionError, 0)
    else
      (MockOutcome.real
        (session_request (cache_and_return_session url_from_args)
          cfg.http_method.toUpper url_from_args kwargs), 1)

/-- The async `_mock_specific_request(*args, **kwargs)` closure.  Identical
to the sync one except: the timeout is asserted against
`ClientTimeout(10)` instead of the integer `10`, the POST-body check is
guarded by `http_method.upper() == "post"` (lowercase, exactly as in the
source), and the synthetic response is an `AsyncMockedResponse`. -/
def async_mock_specific_request {σ ρ : Type} (cfg : MockConfig)
    (async_cache_and_return_session : String → σ)
    (session_request : σ → String → String → Kwargs → ρ)
    (args : List String) (kwargs : Kwargs) :
    MockOutcome AsyncMockedResponse ρ × Nat :=
  match args.get? 1 with
  | none => (MockOutcome.error PyError.indexError, 0)
  | some url_from_args =>
    if some url_from_args == cfg.mocked_request_url then
      match kwargs.lookup "timeout" with
      | none => (MockOutcome.error (PyError.keyError "timeout"), 0)
      | some t =>
        if pyEq t (PyVal.prim (PyPrim.pClientTimeout 10)) then
          if cfg.http_method.toUpper == "post" then
            match kwargs.lookup "data" with
            | none => (MockOutcome.error (PyError.keyError "data"), 0)
            | some d =>
              if pyEq d cfg.expectedPostData then
                (MockOutcome.mocked cfg.asyncMockedResponse, 0)
              else
                (MockOutcome.error PyError.assertionError, 0)
          else
            (MockOutcome.mocked cfg.asyncMockedResponse, 0)
        else
          (MockOutcome.error PyError.assertionError, 0)
    else
      (MockOutcome.real
        (session_request (async_cache_and_return_session url_from_args)
          cfg.http_method.toUpper url_from_args kwargs), 1)

/-- The `WebSocketMessageStreamMock` state: the `messages` deque (embedded
as a list, head = left end), the optional `raise_exception`, and the
`closed` class attribute (initially `False`). -/
structure WebSocketMessageStreamMock (β ε : Type) where
  messages : List β
  raise_exception : Option ε
  closed : Bool
deriving DecidableEq

/-- `WebSocketMessageStreamMock.__init__(messages=None, raise_exception=None)`:
`self.messages = deque(messages) if messages else deque()` (both `None` and
an empty collection are falsy), `self.raise_exception = raise_exception`,
and the class attribute `closed = False`. -/
def WebSocketMessageStreamMock.init {β ε : Type}
    (messages : Option (List β)) (raise_exception : Option ε) :
    WebSocketMessageStreamMock β ε :=
  { messages :=
      match messages with
      | some ms => if ms.isEmpty then [] else ms
      | none => []
    raise_exception := raise_exception
    closed := false }

/-- The three possible outcomes of one `__anext__` call: a message, the
`StopAsyncIteration` end-of-stream signal, or the injected exception. -/
inductive AnextResult (β ε : Type) where
  | msg (m : β)
  | stopAsyncIteration
  | raised (e : ε)
deriving DecidableEq

/-- `WebSocketMessageStreamMock.__anext__`: if `self.raise_exception` is
set (exception instances are truthy), raise it; elif the queue is empty,
raise `StopAsyncIteration`; else `return self.messages.popleft()`.  The
second component is the state after the call. -/
def WebSocketMessageStreamMock.anext {β ε : Type}
    (s : WebSocketMessageStreamMock β ε) :
    AnextResult β ε × WebSocketMessageStreamMock β ε :=
  match s.raise_exception with
  | some e => (AnextResult.raised e, s)
  | none =>
    match s.messages with
    | [] => (AnextResult.stopAsyncIteration, s)
    | m :: rest => (AnextResult.msg m, { s with messages := rest })

/-- The results of `n` successive `__anext__` calls, threading the state. -/
def WebSocketMessageStreamMock.trace {β ε : Type}
    (s : WebSocketMessageStreamMock β ε) : Nat → List (AnextResult β ε)
  | 0 => []
  | Nat.succ n => (s.anext).1 :: (s.anext).2.trace n

/-- `WebSocketMessageStreamMock.send(data)`: a no-op that leaves the state
unchanged. -/
def WebSocketMessageStreamMock.send {β ε : Type}
    (s : WebSocketMessageStreamMock β ε) (_ : β) :
    Unit × WebSocketMessageStreamMock β ε := ((), s)

/-- `WebSocketMessageStreamMock.close()`: a no-op that leaves the state
unchanged. -/
def WebSocketMessageStreamMock.close {β ε : Type}
    (s : WebSocketMessageStreamMock β ε) :
    Unit × WebSocketMessageStreamMock β ε := ((), s)

/-- Value of one hexadecimal digit, case-insensitive. -/
def hexDigit? (c : Char) : Option Nat :=
  if '0' ≤ c ∧ c ≤ '9' then some (c.toNat - '0'.toNat)
  else if 'a' ≤ c ∧ c ≤ 'f' then some (c.toNat - 'a'.toNat + 10)
  else if 'A' ≤ c ∧ c ≤ 'F' then some (c.toNat - 'A'.toNat + 10)
  else none

/-- Parse pairs of hexadecimal digits into bytes. -/
def hexPairs : List Char → Option (List Nat)
  | [] => some []
  | [_] => none
  | c1 :: c2 :: rest => do
    let h ← hexDigit? c1
    let l ← hexDigit? c2
    let bs ← hexPairs rest
    pure ((16 * h + l) :: bs)

/-- Strip an optional `0x` / `0X` prefix from a hex string's characters. -/
def stripHexPre : List Char → List Char
  | '0' :: 'x' :: rest => rest
  | '0' :: 'X' :: rest => rest
  | cs => cs

/-- `HexBytes(s)` on a hex string, per the spec's description of the
external `hexbytes` collaborator: strip an optional `0x`/`0X` prefix,
left-pad to an even number of digits, and decode the hex digits
(case-insensitively) into a byte sequence; `none` on a non-hex character. -/
def HexBytes_of (s : String) : Option (List Nat) :=
  let cs := stripHexPre s.data
  hexPairs (if cs.length % 2 == 1 then '0' :: cs else cs)

/-- `eth_utils.is_same_address`, per the spec's description of the external
collaborator: addresses are compared case/checksum-insensitively. -/
def is_same_address (a b : String) : Bool := a.toLower == b.toLower

/-- A log receipt, with the six fields `assert_contains_log` reads.
Hash-valued fields (`blockHash`, `transactionHash`) are byte sequences. -/
structure LogReceipt where
  blockNumber : Int
  blockHash : List Nat
  logIndex : Int
  address : String
  transactionIndex : Int
  transactionHash : List Nat
deriving DecidableEq

/-- The two fields of `block_with_txn_with_log` that `assert_contains_log`
reads: `block["number"]` and `block["hash"]`. -/
structure BlockData where
  number : Int
  hash : List Nat
deriving DecidableEq

/-- `assert_contains_log(result, block_with_txn_with_log,
emitter_contract_address, txn_hash_with_log)`: `assert len(result) == 1`,
`log_entry = result[0]`, then assert the six field equalities; `true` iff
every assertion passes. -/
def assert_contains_log (result : List LogReceipt)
    (block_with_txn_with_log : BlockData)
    (emitter_contract_address : String) (txn_hash_with_log : String) : Bool :=
  match result with
  | [log_entry] =>
    log_entry.blockNumber == block_with_txn_with_log.number &&
    log_entry.blockHash == block_with_txn_with_log.hash &&
    log_entry.logIndex == 0 &&
    is_same_address log_entry.address emitter_contract_address &&
    log_entry.transactionIndex == 0 &&
    some log_entry.transactionHash == HexBytes_of txn_hash_with_log
  | _ => false

/-! ## Helper lemmas -/

/-- `String.toLower` acts as `Char.toLower` on the underlying characters. -/
theorem toLower_data (s : String) : s.toLower = ⟨s.data.map Char.toLower⟩ :=
  String.map_eq Char.toLower s

/-- `Char.ofNat` on a valid codepoint round-trips through `Char.toNat`. -/
theorem toNat_ofNat_valid {n : Nat} (h : n.isValidChar) :
    (Char.ofNat n).toNat = n := by
  rw [Char.ofNat, dif_pos h]
  rfl

/-- No character upper-cases to the lowercase letter `p`. -/
theorem char_toUpper_ne_p (c : Char) : c.toUpper ≠ 'p' := by
  unfold Char.toUpper
  intro h
  simp only at h
  by_cases hc : c.toNat ≥ 97 ∧ c.toNat ≤ 122
  · rw [if_pos hc] at h
    have hv : (Char.ofNat (c.toNat - 32)).toNat = ('p' : Char).toNat := by rw [h]
    have hvalid : Nat.isValidChar (c.toNat - 32) := by
      obtain ⟨h1, h2⟩ := hc
      left
      omega
    rw [toNat_ofNat_valid hvalid] at hv
    have hp : ('p' : Char).toNat = 112 := by decide
    omega
  · rw [if_neg hc] at h
    subst h
    exact hc ⟨by decide, by decide⟩

/-- `http_method.upper()` can never equal the lowercase string `"post"`:
the guard of the async POST-body validation is unsatisfiable. -/
theorem toUpper_ne_post (s : String) : s.toUpper ≠ "post" := by
  intro h
  rw [String.toUpper, String.map_eq] at h
  have hd : s.data.map Char.toUpper = ['p', 'o', 's', 't'] := congrArg String.data h
  cases hl : s.data with
  | nil => rw [hl] at hd; simp at hd
  | cons a l2 =>
    rw [hl] at hd
    simp only [List.map_cons, List.cons.injEq] at hd
    exact char_toUpper_ne_p a hd.1

/-- An exhausted stream with no injected failure signals end-of-stream on
every further `__anext__` call. -/
theorem trace_empty_no_exc {β ε : Type} (c : Bool) (k : Nat) :
    WebSocketMessageStreamMock.trace
        ({ messages := [], raise_exception := none, closed := c } :
          WebSocketMessageStreamMock β ε) k
      = List.replicate k AnextResult.stopAsyncIteration := by
  induction k with
  | zero => rfl
  | succ n ih =>
    simp [WebSocketMessageStreamMock.trace, WebSocketMessageStreamMock.anext,
      ih, List.replicate]

/-- A stream with no injected failure yields its queued messages in order
and then signals end-of-stream on every further call. -/
theorem trace_messages_no_exc {β ε : Type} (ms : List β) (c : Bool) (k : Nat) :
    WebSocketMessageStreamMock.trace
        ({ messages := ms, raise_exception := none, closed := c } :
          WebSocketMessageStreamMock β ε) (ms.length + k)
      = ms.map AnextResult.msg ++ List.replicate k AnextResult.stopAsyncIteration := by
  induction ms with
  | nil => simpa using trace_empty_no_exc (β := β) (ε := ε) c k
  | cons m rest ih =>
    have hlen : (m :: rest).length + k = Nat.succ (rest.length + k) := by
      simp [List.length_cons]
      omega
    rw [hlen]
    simp [WebSocketMessageStreamMock.trace, WebSocketMessageStreamMock.anext, ih]

/-! ## Claim theorems -/

/-- Claim C5: for every finite list of binary messages supplied at
construction and no injected failure, successive `__anext__` calls on the
`WebSocketMessageStreamMock` return the messages one by one in exactly the
order supplied (FIFO), then signal end-of-stream, and every call after
end-of-stream continues to signal end-of-stream (the terminal state is
idempotent): a trace of `msgs.length + k` calls is the messages in order
followed by `k` end-of-stream signals, for every `k`. -/
theorem stream_fifo_then_end_of_stream :
    ∀ (β ε : Type) (msgs : List β) (k : Nat),
      (WebSocketMessageStreamMock.init (β := β) (ε := ε) (some msgs) none).trace
          (msgs.length + k)
        = msgs.map AnextResult.msg
            ++ List.replicate k AnextResult.stopAsyncIteration := by
  intro β ε msgs k
  have hinit : WebSocketMessageStreamMock.init (β := β) (ε := ε) (some msgs) none
      = { messages := msgs, raise_exception := none, closed := false } := by
    cases msgs <;> simp [WebSocketMessageStreamMock.init]
  rw [hinit]
  exact trace_messages_no_exc msgs false k

/-- Claim C6: for every `WebSocketMessageStreamMock` constructed with an
injected failure `e`, every `__anext__` call — the first and every
subsequent one — raises `e`, regardless of how many messages were queued
at construction: a trace of `n` calls is `n` raises of `e`, for every `n`
and every queued message list (including none). -/
theorem stream_injected_failure_every_call :
    ∀ (β ε : Type) (msgs : Option (List β)) (e : ε) (n : Nat),
      (WebSocketMessageStreamMock.init msgs (some e)).trace n
        = List.replicate n (AnextResult.raised e) := by
  intro β ε msgs e n
  induction n with
  | zero => rfl
  | succ m ih =>
    simp [WebSocketMessageStreamMock.trace, WebSocketMessageStreamMock.anext,
      WebSocketMessageStreamMock.init, List.replicate]
    simpa [WebSocketMessageStreamMock.init] using ih

/-- Claim C10: when a `WebSocketMessageStreamMock` has an injected failure
set, an `__anext__` call raises it and leaves the state entirely
unchanged: the message queue keeps all its elements in order, the injected
failure stays set, and the `closed` flag keeps its value. -/
theorem anext_raise_leaves_state_unchanged :
    ∀ (β ε : Type) (ms : List β) (e : ε) (c : Bool),
      WebSocketMessageStreamMock.anext
          ({ messages := ms, raise_exception := some e, closed := c } :
            WebSocketMessageStreamMock β ε)
        = (AnextResult.raised e,
            { messages := ms, raise_exception := some e, closed := c }) := by
  intro β ε ms e c
  rfl

/-- Claim C7: for every configured field name and payload string (including
the defaults, field `"data"` and payload `"0x"`), the synthetic response's
`json()` operation of both the sync and the async interceptor returns
exactly the one-entry mapping from the configured field name to the
configured payload, and nothing else. -/
theorem json_returns_configured_mapping :
    ∀ cfg : MockConfig,
      cfg.mockedResponse.json = [(cfg.json_data_field, cfg.mocked_json_data)] ∧
      cfg.asyncMockedResponse.json = [(cfg.json_data_field, cfg.mocked_json_data)] ∧
      defaultMockConfig.mockedResponse.json = [("data", "0x")] ∧
      defaultMockConfig.asyncMockedResponse.json = [("data", "0x")] := by
  intro cfg
  exact ⟨rfl, rfl, rfl, rfl⟩

/-- Claim C9: for every synthetic response produced by the sync or async
interceptor, calling its `raise_for_status` operation always raises an
error (`Exception("called raise_for_status()")`), regardless of the
configured status code. -/
theorem raise_for_status_always_raises :
    ∀ cfg : MockConfig,
      cfg.mockedResponse.raise_for_status
          = Except.error "called raise_for_status()" ∧
      cfg.asyncMockedResponse.raise_for_status
          = Except.error "called raise_for_status()" := by
  intro cfg
  exact ⟨rfl, rfl⟩

/-- `"GET".upper() == "GET"`. -/
theorem toUpper_GET : ("GET" : String).toUpper = "GET" := by
  rw [String.toUpper, String.map_eq]
  decide

/-- `"POST".upper() == "POST"`. -/
theorem toUpper_POST : ("POST" : String).toUpper = "POST" := by
  rw [String.toUpper, String.map_eq]
  decide

/-- A concrete GET interceptor configuration targeting `http://target`,
used in concrete instantiations. -/
def cfgGet : MockConfig :=
  { http_method := "GET"
    mocked_request_url := some "http://target"
    mocked_status_code := 200
    mocked_json_data := "0x"
    json_data_field := "data"
    sender := none
    calldata := none }

/-- A concrete POST interceptor configuration targeting `http://target`,
used in concrete instantiations. -/
def cfgPost : MockConfig :=
  { http_method := "POST"
    mocked_request_url := some "http://target"
    mocked_status_code := 200
    mocked_json_data := "0x"
    json_data_field := "data"
    sender := some "0xSenderAddress"
    calldata := some "0xCalldata" }

/-- Claim C3: for every call to the sync or async interceptor whose url
differs from `mocked_request_url`, the interceptor forwards the call to
the real-session path with the same method (upper-cased `http_method`),
the same url, and the same options unchanged, and returns exactly the
value that real-session call returns, taking the real-session path exactly
once. -/
theorem unmatched_url_passthrough :
    ∀ (σ ρ σ2 ρ2 : Type) (cfg : MockConfig)
      (factory : String → σ) (req : σ → String → String → Kwargs → ρ)
      (afactory : String → σ2) (areq : σ2 → String → String → Kwargs → ρ2)
      (s url : String) (rest : List String) (kwargs akwargs : Kwargs),
      (some url == cfg.mocked_request_url) = false →
      mock_specific_request cfg factory req (s :: url :: rest) kwargs
          = (MockOutcome.real
              (req (factory url) cfg.http_method.toUpper url kwargs), 1) ∧
      async_mock_specific_request cfg afactory areq (s :: url :: rest) akwargs
          = (MockOutcome.real
              (areq (afactory url) cfg.http_method.toUpper url akwargs), 1) := by
  intro σ ρ σ2 ρ2 cfg factory req afactory areq s url rest kwargs akwargs h
  constructor
  · simp [mock_specific_request, h]
  · simp [async_mock_specific_request, h]

/-- Witness for C3 at concrete inputs: a GET to `http://other` (not the
target) is forwarded to the real session by both interceptors. -/
theorem unmatched_url_passthrough_witness :
    mock_specific_request cfgGet (fun _ => ()) (fun _ _ _ _ => ())
        ["session_self", "http://other"]
        [("timeout", PyVal.prim (PyPrim.pInt 10))]
      = (MockOutcome.real (), 1) ∧
    async_mock_specific_request cfgGet (fun _ => ()) (fun _ _ _ _ => ())
        ["session_self", "http://other"]
        [("timeout", PyVal.prim (PyPrim.pClientTimeout 10))]
      = (MockOutcome.real (), 1) :=
  unmatched_url_passthrough Unit Unit Unit Unit cfgGet
    (fun _ => ()) (fun _ _ _ _ => ()) (fun _ => ()) (fun _ _ _ _ => ())
    "session_self" "http://other" []
    [("timeout", PyVal.prim (PyPrim.pInt 10))]
    [("timeout", PyVal.prim (PyPrim.pClientTimeout 10))]
    (by decide)

/-- Claim C4: for every call to the sync or async interceptor whose url
equals `mocked_request_url` and whose options satisfy the timeout and
POST-body preconditions, the interceptor never invokes the real-session
path (the real-call counter stays at zero, so neither the session factory
nor its request operation is called) and instead returns the synthetic
response built from the configured rule. -/
theorem matched_url_never_real_session :
    ∀ (σ ρ σ2 ρ2 : Type) (cfg : MockConfig)
      (factory : String → σ) (req : σ → String → String → Kwargs → ρ)
      (afactory : String → σ2) (areq : σ2 → String → String → Kwargs → ρ2)
      (s url : String) (rest : List String) (kwargs akwargs : Kwargs)
      (t ta : PyVal),
      (some url == cfg.mocked_request_url) = true →
      kwargs.lookup "timeout" = some t →
      pyEq t (PyVal.prim (PyPrim.pInt 10)) = true →
      (cfg.http_method.toUpper = "POST" →
        ∃ d, kwargs.lookup "data" = some d ∧
          pyEq d cfg.expectedPostData = true) →
      akwargs.lookup "timeout" = some ta →
      pyEq ta (PyVal.prim (PyPrim.pClientTimeout 10)) = true →
      (cfg.http_method.toUpper = "POST" →
        ∃ d, akwargs.lookup "data" = some d ∧
          pyEq d cfg.expectedPostData = true) →
      mock_specific_request cfg factory req (s :: url :: rest) kwargs
          = (MockOutcome.mocked cfg.mockedResponse, 0) ∧
      async_mock_specific_request cfg afactory areq (s :: url :: rest) akwargs
          = (MockOutcome.mocked cfg.asyncMockedResponse, 0) := by
  intro σ ρ σ2 ρ2 cfg factory req afactory areq s url rest kwargs akwargs
    t ta hmatch ht hteq hpost hta htaeq _hapost
  constructor
  · by_cases hp : cfg.http_method.toUpper = "POST"
    · obtain ⟨d, hd, hde⟩ := hpost hp
      simp [mock_specific_request, hmatch, ht, hteq, hp, hd, hde]
    · have hp' : (cfg.http_method.toUpper == "POST") = false := by
        simp [hp]
      simp [mock_specific_request, hmatch, ht, hteq, hp']
  · have hp' : (cfg.http_method.toUpper == "post") = false := by
      simp [toUpper_ne_post cfg.http_method]
    simp [async_mock_specific_request, hmatch, hta, htaeq, hp']

/-- Witness for C4 at concrete inputs: a GET to the target url with
timeout 10 gets the synthetic response from both interceptors with the
real-call counter at zero. -/
theorem matched_url_never_real_session_witness :
    mock_specific_request cfgGet (fun _ => ()) (fun _ _ _ _ => ())
        ["session_self", "http://target"]
        [("timeout", PyVal.prim (PyPrim.pInt 10))]
      = (MockOutcome.mocked cfgGet.mockedResponse, 0) ∧
    async_mock_specific_request cfgGet (fun _ => ()) (fun _ _ _ _ => ())
        ["session_self", "http://target"]
        [("timeout", PyVal.prim (PyPrim.pClientTimeout 10))]
      = (MockOutcome.mocked cfgGet.asyncMockedResponse, 0) :=
  matched_url_never_real_session Unit Unit Unit Unit cfgGet
    (fun _ => ()) (fun _ _ _ _ => ()) (fun _ => ()) (fun _ _ _ _ => ())
    "session_self" "http://target" []
    [("timeout", PyVal.prim (PyPrim.pInt 10))]
    [("timeout", PyVal.prim (PyPrim.pClientTimeout 10))]
    (PyVal.prim (PyPrim.pInt 10)) (PyVal.prim (PyPrim.pClientTimeout 10))
    (by decide) (by decide) (by decide)
    (by intro h; rw [show cfgGet.http_method.toUpper = "GET" from toUpper_GET] at h; exact absurd h (by decide))
    (by decide) (by decide)
    (by intro h; rw [show cfgGet.http_method.toUpper = "GET" from toUpper_GET] at h; exact absurd h (by decide))

/-- Claim C1 counterexample: the claim says a timeout different from the
expected fixed 10-unit timeout makes the interceptor fail with an
assertion error even for unmatched URLs, but the timeout assertion lives
inside the matched-URL branch: a sync call to `http://other` (not the
target) with `timeout=5` is forwarded to the real session and returns its
response instead of failing. -/
theorem timeout_ignored_for_unmatched_url_cex :
    mock_specific_request cfgGet (fun _ => ()) (fun _ _ _ _ => ())
        ["session_self", "http://other"]
        [("timeout", PyVal.prim (PyPrim.pInt 5))]
      = (MockOutcome.real (), 1) := by
  decide

/-- Claim C1 (amended): for every call to the installed sync or async
interceptor whose url equals `mocked_request_url` and whose options carry
a timeout value different from the expected fixed 10-unit timeout (`10`
for the sync interceptor, `ClientTimeout(10)` for the async one), the
interceptor fails with an assertion error before returning any response;
for unmatched URLs the timeout is not checked and the call is forwarded. -/
theorem timeout_mismatch_fails_on_matched_url :
    ∀ (σ ρ σ2 ρ2 : Type) (cfg : MockConfig)
      (factory : String → σ) (req : σ → String → String → Kwargs → ρ)
      (afactory : String → σ2) (areq : σ2 → String → String → Kwargs → ρ2)
      (s url : String) (rest : List String) (kwargs akwargs : Kwargs)
      (t ta : PyVal),
      (some url == cfg.mocked_request_url) = true →
      kwargs.lookup "timeout" = some t →
      pyEq t (PyVal.prim (PyPrim.pInt 10)) = false →
      akwargs.lookup "timeout" = some ta →
      pyEq ta (PyVal.prim (PyPrim.pClientTimeout 10)) = false →
      (mock_specific_request cfg factory req (s :: url :: rest) kwargs).1
          = MockOutcome.error PyError.assertionError ∧
      (async_mock_specific_request cfg afactory areq (s :: url :: rest) akwargs).1
          = MockOutcome.error PyError.assertionError := by
  intro σ ρ σ2 ρ2 cfg factory req afactory areq s url rest kwargs akwargs
    t ta hmatch ht hteq hta htaeq
  constructor
  · simp [mock_specific_request, hmatch, ht, hteq]
  · simp [async_mock_specific_request, hmatch, hta, htaeq]

/-- Witness for the amended C1 at concrete inputs: a call to the target
url with sync `timeout=5` (or async `timeout=ClientTimeout(7)`) raises an
assertion error in the respective interceptor. -/
theorem timeout_mismatch_fails_on_matched_url_witness :
    (mock_specific_request cfgGet (fun _ => ()) (fun _ _ _ _ => ())
        ["session_self", "http://target"]
        [("timeout", PyVal.prim (PyPrim.pInt 5))]).1
      = MockOutcome.error PyError.assertionError ∧
    (async_mock_specific_request cfgGet (fun _ => ()) (fun _ _ _ _ => ())
        ["session_self", "http://target"]
        [("timeout", PyVal.prim (PyPrim.pClientTimeout 7))]).1
      = MockOutcome.error PyError.assertionError :=
  timeout_mismatch_fails_on_matched_url Unit Unit Unit Unit cfgGet
    (fun _ => ()) (fun _ _ _ _ => ()) (fun _ => ()) (fun _ _ _ _ => ())
    "session_self" "http://target" []
    [("timeout", PyVal.prim (PyPrim.pInt 5))]
    [("timeout", PyVal.prim (PyPrim.pClientTimeout 7))]
    (PyVal.prim (PyPrim.pInt 5)) (PyVal.prim (PyPrim.pClientTimeout 7))
    (by decide) (by decide) (by decide) (by decide) (by decide)

/-- Claim C2 (evaluating the code at the failing input): the async
interceptor configured with `http_method="POST"` never validates the POST
body — its guard compares `http_method.upper()` (which yields `"POST"`)
against the lowercase literal `"post"`, so for a POST to the target url
with the correct `ClientTimeout(10)` it returns the synthetic response for
EVERY `data` option, including ones different from
`{"data": calldata, "sender": sender}`, instead of raising the assertion
error the claim (and the sync interceptor's contract) requires. -/
theorem async_post_body_never_validated :
    ∀ d : PyVal,
      async_mock_specific_request cfgPost (fun _ => ()) (fun _ _ _ _ => ())
          ["session_self", "http://target"]
          [("timeout", PyVal.prim (PyPrim.pClientTimeout 10)), ("data", d)]
        = (MockOutcome.mocked cfgPost.asyncMockedResponse, 0) := by
  intro d
  simp [async_mock_specific_request, pyEq, cfgPost]
  intro habs
  exact absurd habs (toUpper_ne_post "POST")

/-- Claim C8: `assert_contains_log` succeeds if and only if the result
sequence has exactly one element whose `blockNumber` equals the expected
block's number, `blockHash` equals the expected block's hash, `logIndex`
equals 0, `transactionIndex` equals 0, `address` is address-equal
(case/checksum-insensitive) to the expected emitter, and
`transactionHash` equals the expected transaction hash normalized to a
byte sequence; in particular it fails for result sequences of length 0 or
2, and for a nonzero `logIndex`. -/
theorem assert_contains_log_characterization :
    (∀ (result : List LogReceipt) (b : BlockData) (emitter txn : String),
      assert_contains_log result b emitter txn = true ↔
        ∃ log_entry, result = [log_entry] ∧
          log_entry.blockNumber = b.number ∧
          log_entry.blockHash = b.hash ∧
          log_entry.logIndex = 0 ∧
          log_entry.address.toLower = emitter.toLower ∧
          log_entry.transactionIndex = 0 ∧
          some log_entry.transactionHash = HexBytes_of txn) ∧
    (∀ (b : BlockData) (emitter txn : String),
      assert_contains_log [] b emitter txn = false) ∧
    (∀ (l1 l2 : LogReceipt) (b : BlockData) (emitter txn : String),
      assert_contains_log [l1, l2] b emitter txn = false) ∧
    (∀ (log_entry : LogReceipt) (b : BlockData) (emitter txn : String),
      log_entry.logIndex ≠ 0 →
      assert_contains_log [log_entry] b emitter txn = false) := by
  have hmain : ∀ (result : List LogReceipt) (b : BlockData) (emitter txn : String),
      assert_contains_log result b emitter txn = true ↔
        ∃ log_entry, result = [log_entry] ∧
          log_entry.blockNumber = b.number ∧
          log_entry.blockHash = b.hash ∧
          log_entry.logIndex = 0 ∧
          log_entry.address.toLower = emitter.toLower ∧
          log_entry.transactionIndex = 0 ∧
          some log_entry.transactionHash = HexBytes_of txn := by
    intro result b emitter txn
    match result with
    | [] => simp [assert_contains_log]
    | [log_entry] => simp [assert_contains_log, is_same_address, and_assoc]
    | l1 :: l2 :: rest => simp [assert_contains_log]
  refine ⟨hmain, ?_, ?_, ?_⟩
  · intro b emitter txn
    simp [assert_contains_log]
  · intro l1 l2 b emitter txn
    simp [assert_contains_log]
  · intro log_entry b emitter txn hne
    rcases h : assert_contains_log [log_entry] b emitter txn with _ | _
    · rfl
    · exact absurd ((hmain [log_entry] b emitter txn).mp h) (by
        rintro ⟨l, hl, -, -, hidx, -⟩
        cases hl
        exact hne hidx)

/-- Witness for C8 at concrete inputs: a well-formed one-element result
(with the emitter in a different checksum casing) passes, and the same
entry with `logIndex = 3` fails. -/
theorem assert_contains_log_characterization_witness :
    assert_contains_log
        [{ blockNumber := 10, blockHash := [1, 2], logIndex := 0,
           address := "0xAbC", transactionIndex := 0,
           transactionHash := [171, 205] }]
        { number := 10, hash := [1, 2] } "0xaBc" "0xabcd" = true ∧
    assert_contains_log
        [{ blockNumber := 10, blockHash := [1, 2], logIndex := 3,
           address := "0xAbC", transactionIndex := 0,
           transactionHash := [171, 205] }]
        { number := 10, hash := [1, 2] } "0xaBc" "0xabcd" = false :=
  ⟨(assert_contains_log_characterization.1 _ _ _ _).mpr
      ⟨_, rfl, rfl, rfl, rfl,
        by rw [toLower_data, toLower_data]; decide, rfl, by decide⟩,
    assert_contains_log_characterization.2.2.2 _ _ _ _ (by decide)⟩

end ModuleTestingUtils
